import Mathlib

/-!
Shallow embedding of the turn-by-turn navigation core of the smartparking
repository (`src/src/App.tsx`, component `NavigationModal`, lines 617-923).

The embedding transcribes, from the source:
  * the OSRM route payload shapes (`OsrmStep`, `OsrmRoute`, lines 576-587);
  * the component state of `NavigationModal` (lines 621-634) as `NavState`
    (React `useState`/`useRef` cells become record fields; the GPS watch
    handle and the reroute timeout handle become `watch : Bool` and
    `rerouteTimer : Option RerouteTimer`, where `rerouteTimer = some t`
    means a timeout is armed and has not yet fired or been cleared);
  * `fetchRoute` (lines 637-658), split at its `await` into a start phase
    and a completion phase applied to the parsed response;
  * `stopWatch` (lines 666-672), `startNavigation` (lines 674-686),
    `stopNavigation` (lines 688-692);
  * the per-position-fix effect (lines 697-729) as `processFix`;
  * the recenter control (lines 836-842).

Distances are over `ℝ`; `Math.hypot` is the real square-root of the sum of
squares, exactly as the three inline distance computations in the effect use
it (lines 701-702, 712, 719).
-/

namespace SmartParking

open Classical

noncomputable section

/-- Coordinate as a (latitude, longitude) pair in degrees, matching the
`[lat, lng]` tuples (`livePos`, `garage.lat`/`garage.lng`) of the source. -/
structure Coord where
  lat : ℝ
  lng : ℝ

/-- OSRM maneuver of a step (source `OsrmStep.maneuver`, lines 576-581).
`location` keeps the OSRM wire order `[lng, lat]`, which the source
destructures as `const [nLng, nLat] = nextStep.maneuver.location`. -/
structure Maneuver where
  type : String
  modifier : Option String
  location : ℝ × ℝ

/-- OSRM step (source type `OsrmStep`, lines 576-581). -/
structure OsrmStep where
  distance : ℝ
  duration : ℝ
  name : String
  maneuver : Maneuver

/-- One leg of an OSRM route: a list of steps (source `legs: [{ steps }]`). -/
structure OsrmLeg where
  steps : List OsrmStep

/-- OSRM route (source type `OsrmRoute`, lines 582-587). -/
structure OsrmRoute where
  distance : ℝ
  duration : ℝ
  geometry : List (ℝ × ℝ)
  legs : List OsrmLeg

/-- Steps of a route as the source reads them:
`route.legs[0]?.steps ?? []` (line 699 and line 732). -/
def legSteps (r : OsrmRoute) : List OsrmStep :=
  match r.legs.head? with
  | some l => l.steps
  | none => []

/-- Navigation mode: the source's `navMode` state is the string union
`'preview' | 'navigating'` (line 626). -/
inductive NavMode where
  | preview
  | navigating
deriving DecidableEq

/-- An armed reroute debounce timeout: the delay passed to `setTimeout`
(1500 at line 725) and the `livePos` captured by the timeout closure
(line 724), which becomes the reroute origin when the timer fires. -/
structure RerouteTimer where
  delayMs : ℕ
  origin : Coord

/-- Parsed outcome of the OSRM fetch in `fetchRoute`: `ok routes` is a
response whose `data.routes` array parsed (possibly empty, and a missing
`routes` field behaves as the empty array through `data.routes?.[0]`);
`err` is a thrown transport/parse error (the `catch` branch). -/
inductive FetchOutcome where
  | ok (routes : List OsrmRoute)
  | err

/-- Mutable state of `NavigationModal` (lines 621-634): `route`, the
loading/error cells, `navMode`, `livePos`, `stepIdx`, `followUser`,
`rerouting`, plus the `watchRef` geolocation handle (as a Bool: a watch is
registered) and the `rerouteTimer` ref (as an armed, not-yet-fired
timeout, or `none`). -/
structure NavState where
  navMode : NavMode
  route : Option OsrmRoute
  routeLoading : Bool
  routeError : Option String
  livePos : Option Coord
  stepIdx : ℕ
  followUser : Bool
  rerouting : Bool
  watch : Bool
  rerouteTimer : Option RerouteTimer

namespace Math

/-- `Math.hypot(x, y)` of JavaScript: the square root of the sum of
squares. -/
def hypot (x y : ℝ) : ℝ :=
  Real.sqrt (x ^ 2 + y ^ 2)

end Math

/-- Destination distance of the arrival check, line 701-702:
`Math.hypot(livePos[0] - garage.lat, livePos[1] - garage.lng) * 111_000`. -/
def destDistCode (p g : Coord) : ℝ :=
  Math.hypot (p.lat - g.lat) (p.lng - g.lng) * 111000

/-- Distance to the next step's maneuver used by the step-advance check,
line 712: `Math.hypot(livePos[0] - nLat, livePos[1] - nLng) * 111_000`,
where `loc = (nLng, nLat)` in OSRM order. -/
def advanceDistCode (p : Coord) (loc : ℝ × ℝ) : ℝ :=
  Math.hypot (p.lat - loc.2) (p.lng - loc.1) * 111000

/-- Distance to the current step's maneuver used by the off-route check,
line 719: `Math.hypot(livePos[0] - cLat, livePos[1] - cLng) * 111_000`,
where `loc = (cLng, cLat)` in OSRM order. -/
def offRouteDistCode (p : Coord) (loc : ℝ × ℝ) : ℝ :=
  Math.hypot (p.lat - loc.2) (p.lng - loc.1) * 111000

/-- Formula stated by the specification for `distanceMeters`: the planar
small-angle approximation `sqrt((a.lat - b.lat)^2 + (a.lng - b.lng)^2) *
111000`. Written from the spec's words (section 4.1), to be compared with
the three code-side distance computations. -/
def distanceMetersSpec (a b : Coord) : ℝ :=
  Real.sqrt ((a.lat - b.lat) ^ 2 + (a.lng - b.lng) ^ 2) * 111000

/-- `stopWatch` (lines 666-672): clears the geolocation watch and calls
`clearTimeout` on the reroute timeout, so no armed timer remains. All other
state cells are untouched. -/
def stopWatch (s : NavState) : NavState :=
  { s with watch := false, rerouteTimer := none }

/-- `startNavigation` (lines 674-686): `setNavMode('navigating')`,
`setFollowUser(true)`, then registers the geolocation watch. -/
def startNavigation (s : NavState) : NavState :=
  { s with navMode := NavMode.navigating, followUser := true, watch := true }

/-- `stopNavigation` (lines 688-692): `stopWatch()`, then
`setNavMode('preview')` and `setFollowUser(false)`. -/
def stopNavigation (s : NavState) : NavState :=
  { stopWatch s with navMode := NavMode.preview, followUser := false }

/-- Start phase of `fetchRoute` (lines 639-640), up to the `await`:
`setRouteLoading(true); setRouteError(null)`. -/
def fetchRouteStart (s : NavState) : NavState :=
  { s with routeLoading := true, routeError := none }

/-- Completion phase of `fetchRoute` (lines 645-655), applied to the parsed
response: if `data.routes?.[0]` exists, `setRoute(data.routes[0])` and
`setStepIdx(0)`; otherwise `setRouteError('No route found')`; on a thrown
error, `setRouteError('Could not load route')`; in every case the
`finally` block runs `setRouteLoading(false)` and `setRerouting(false)`. -/
def fetchRouteComplete (s : NavState) (res : FetchOutcome) : NavState :=
  let s1 :=
    match res with
    | FetchOutcome.ok routes =>
      match routes.head? with
      | some r => { s with route := some r, stepIdx := 0 }
      | none => { s with routeError := some "No route found" }
    | FetchOutcome.err => { s with routeError := some "Could not load route" }
  { s1 with routeLoading := false, rerouting := false }

/-- Per-fix effect (lines 697-729). The watch callback stores the fix in
`livePos` and the effect re-runs; it returns early unless a position, a
route and navigating mode are all present. Then, in source order:
arrival check (`destDist < 25`: `stopWatch()`, `setNavMode('preview')`,
`return`); step advance (`steps[stepIdx + 1]` exists and its maneuver is
nearer than 35 m: `setStepIdx(i => i + 1)`); off-route check against
`steps[stepIdx]` — the index read before any advance in this run — which,
when `!rerouting` and the distance exceeds 120 m, does
`setRerouting(true)`, clears any previous timeout and arms a fresh
1500 ms timeout capturing the current fix. The Bool result records
whether this fix armed a reroute timeout. -/
def processFix (dest : Coord) (s0 : NavState) (p : Coord) : NavState × Bool :=
  let s : NavState := { s0 with livePos := some p }
  match s.route with
  | none => (s, false)
  | some r =>
    if s.navMode = NavMode.navigating then
      if destDistCode p dest < 25 then
        ({ stopWatch s with navMode := NavMode.preview }, false)
      else
        let steps := legSteps r
        let s1 :=
          match steps[s.stepIdx + 1]? with
          | some next =>
            if advanceDistCode p next.maneuver.location < 35 then
              { s with stepIdx := s.stepIdx + 1 }
            else s
          | none => s
        match steps[s.stepIdx]? with
        | some cur =>
          if s.rerouting = false ∧ offRouteDistCode p cur.maneuver.location > 120 then
            ({ s1 with rerouting := true,
                       rerouteTimer := some { delayMs := 1500, origin := p } }, true)
          else (s1, false)
        | none => (s1, false)
    else (s, false)

/-- Sequential processing of a list of fixes, counting how many of them
armed a reroute timeout (each watch callback updates `livePos` and the
effect runs once per fix, in arrival order). -/
def processFixes (dest : Coord) (s : NavState) : List Coord → NavState × ℕ
  | [] => (s, 0)
  | p :: ps =>
    let out := processFix dest s p
    let rest := processFixes dest out.1 ps
    (rest.1, (if out.2 then 1 else 0) + rest.2)

/-- External events serialized into the session, as the source receives
them: a geolocation watch callback delivering a fix, the Start/Stop
buttons, the recenter control, the armed reroute timeout firing (which
starts the fetch with the captured origin), and a fetch completing. -/
inductive Event where
  | fix (p : Coord)
  | start
  | stop
  | recenter
  | timerFire
  | fetchDone (res : FetchOutcome)

/-- When an event can occur: watch callbacks only while a watch is
registered; Start only from preview with a route loaded (the button is
disabled otherwise, line 886); Stop only while navigating (the button is
only rendered then, line 896); the timeout only while armed; a fetch
completion only while a fetch is in flight (`routeLoading`). -/
def enabled (s : NavState) : Event → Prop
  | Event.fix _ => s.watch = true
  | Event.start => s.navMode = NavMode.preview ∧ s.route.isSome
  | Event.stop => s.navMode = NavMode.navigating
  | Event.recenter => True
  | Event.timerFire => s.rerouteTimer.isSome
  | Event.fetchDone _ => s.routeLoading = true

/-- Effect of one event on the state. The recenter control does
`setFollowUser(true)` (line 840); the timeout firing runs
`fetchRoute(livePos[0], livePos[1])` (line 724), i.e. consumes the armed
timer and enters the fetch start phase. -/
def stepEv (dest : Coord) (s : NavState) : Event → NavState
  | Event.fix p => (processFix dest s p).1
  | Event.start => startNavigation s
  | Event.stop => stopNavigation s
  | Event.recenter => { s with followUser := true }
  | Event.timerFire => fetchRouteStart { s with rerouteTimer := none }
  | Event.fetchDone res => fetchRouteComplete s res

/-- Configuration in which the `rerouting` flag can never be cleared
again: the flag is set, no timeout is armed, and no fetch is in flight
(so no `fetchDone` event — the only clearer of the flag — can occur). -/
def stuckState (s : NavState) : Prop :=
  s.rerouting = true ∧ s.rerouteTimer = none ∧ s.routeLoading = false

/-! Concrete inputs used to instantiate the theorems below. -/

/-- Origin of the coordinate plane, also used as a destination. -/
def wDest : Coord := { lat := 0, lng := 0 }

/-- Route whose single leg has an empty step list; `data.routes[0]` is a
non-null object for it, so the source's truthiness test accepts it. -/
def emptyStepsRoute : OsrmRoute :=
  { distance := 500, duration := 60, geometry := [], legs := [{ steps := [] }] }

/-- Route installed before a reroute in the stale-result scenario. -/
def wRouteA : OsrmRoute :=
  { distance := 1, duration := 1, geometry := [], legs := [{ steps := [] }] }

/-- Route returned by the late reroute fetch in the stale-result
scenario; it differs from `wRouteA` in its total distance. -/
def wRouteB : OsrmRoute :=
  { distance := 2, duration := 1, geometry := [], legs := [{ steps := [] }] }

/-- Neutral session state with a fetch in flight and no route yet. -/
def cexState : NavState :=
  { navMode := NavMode.preview, route := none, routeLoading := true, routeError := none,
    livePos := none, stepIdx := 0, followUser := true, rerouting := false, watch := false,
    rerouteTimer := none }

/-- Navigating session with a reroute fetch in flight (the debounce timer
already fired) and `wRouteA` as the active route. -/
def inFlightState : NavState :=
  { navMode := NavMode.navigating, route := some wRouteA, routeLoading := true,
    routeError := none, livePos := some wDest, stepIdx := 3, followUser := true,
    rerouting := true, watch := true, rerouteTimer := none }

/-- The in-flight session after navigation has been stopped. -/
def stoppedInFlight : NavState :=
  { inFlightState with navMode := NavMode.preview, watch := false, followUser := false }

/-- Navigating session with the camera following the user. -/
def navFollowState : NavState :=
  { navMode := NavMode.navigating, route := some wRouteA, routeLoading := false,
    routeError := none, livePos := some wDest, stepIdx := 0, followUser := true,
    rerouting := false, watch := true, rerouteTimer := none }

/-- Maneuver of the single step of `wRouteC`, at the origin (OSRM stores
`location` as `[lng, lat]`). -/
def wManeuver0 : Maneuver := { type := "depart", modifier := none, location := (0, 0) }

/-- Single step of `wRouteC`. -/
def wStep0 : OsrmStep :=
  { distance := 100, duration := 60, name := "Main", maneuver := wManeuver0 }

/-- Route with a single step, for the off-route scenario. -/
def wRouteC : OsrmRoute :=
  { distance := 100, duration := 60, geometry := [], legs := [{ steps := [wStep0] }] }

/-- Destination two degrees of latitude from the off-route fix. -/
def wOffDest : Coord := { lat := 2, lng := 0 }

/-- Fix one degree of latitude (about 111 km) from the only step of
`wRouteC` — far off route. -/
def wOffFix : Coord := { lat := 1, lng := 0 }

/-- Navigating session on `wRouteC`, not yet rerouting. -/
def offRouteNavState : NavState :=
  { navMode := NavMode.navigating, route := some wRouteC, routeLoading := false,
    routeError := none, livePos := none, stepIdx := 0, followUser := true,
    rerouting := false, watch := true, rerouteTimer := none }

/-- Navigating session at step index 2 with an armed debounce timer. -/
def armedNavState : NavState :=
  { navMode := NavMode.navigating, route := some wRouteA, routeLoading := false,
    routeError := none, livePos := some wDest, stepIdx := 2, followUser := true,
    rerouting := true, watch := true,
    rerouteTimer := some { delayMs := 1500, origin := wDest } }

/-- First step of `wRouteD`, with a distant maneuver. -/
def wStepA : OsrmStep :=
  { distance := 50, duration := 30, name := "A",
    maneuver := { type := "depart", modifier := none, location := (3, 3) } }

/-- Second step of `wRouteD`, with its maneuver at the origin. -/
def wStepB : OsrmStep :=
  { distance := 50, duration := 30, name := "B",
    maneuver := { type := "arrive", modifier := none, location := (0, 0) } }

/-- Two-step route for the step-advance scenario. -/
def wRouteD : OsrmRoute :=
  { distance := 100, duration := 60, geometry := [], legs := [{ steps := [wStepA, wStepB] }] }

/-- Destination one degree of latitude from the step-advance fix. -/
def wAdvDest : Coord := { lat := 1, lng := 0 }

/-- Fix at the maneuver of `wStepB`. -/
def wAdvFix : Coord := { lat := 0, lng := 0 }

/-- Navigating session on `wRouteD` at its first step. -/
def advanceNavState : NavState :=
  { navMode := NavMode.navigating, route := some wRouteD, routeLoading := false,
    routeError := none, livePos := none, stepIdx := 0, followUser := true,
    rerouting := false, watch := true, rerouteTimer := none }

/-- Navigating session whose debounce timer was armed and then cancelled
by a stop, leaving `rerouting` set with no fetch in flight. -/
def stuckArmedState : NavState :=
  { navMode := NavMode.navigating, route := some wRouteC, routeLoading := false,
    routeError := none, livePos := some wOffFix, stepIdx := 0, followUser := true,
    rerouting := true, watch := true,
    rerouteTimer := some { delayMs := 1500, origin := wOffFix } }

/-! Helper lemmas. -/

/-- Evaluate `Math.hypot` when the sum of squares is a known square. -/
lemma hypot_eval {x y c : ℝ} (hc : 0 ≤ c) (h : x ^ 2 + y ^ 2 = c ^ 2) :
    Math.hypot x y = c := by
  rw [Math.hypot, h, Real.sqrt_sq hc]

/-- Evaluate the arrival-check distance. -/
lemma destDistCode_eval {p g : Coord} {c : ℝ} (hc : 0 ≤ c)
    (h : (p.lat - g.lat) ^ 2 + (p.lng - g.lng) ^ 2 = c ^ 2) :
    destDistCode p g = c * 111000 := by
  rw [destDistCode, hypot_eval hc h]

/-- Evaluate the step-advance distance. -/
lemma advanceDistCode_eval {p : Coord} {loc : ℝ × ℝ} {c : ℝ} (hc : 0 ≤ c)
    (h : (p.lat - loc.2) ^ 2 + (p.lng - loc.1) ^ 2 = c ^ 2) :
    advanceDistCode p loc = c * 111000 := by
  rw [advanceDistCode, hypot_eval hc h]

/-- Evaluate the off-route distance. -/
lemma offRouteDistCode_eval {p : Coord} {loc : ℝ × ℝ} {c : ℝ} (hc : 0 ≤ c)
    (h : (p.lat - loc.2) ^ 2 + (p.lng - loc.1) ^ 2 = c ^ 2) :
    offRouteDistCode p loc = c * 111000 := by
  rw [offRouteDistCode, hypot_eval hc h]

/-- The step-advance and off-route checks use the same distance. -/
lemma advanceDistCode_eq_offRouteDistCode (p : Coord) (loc : ℝ × ℝ) :
    advanceDistCode p loc = offRouteDistCode p loc := rfl

/-- Arrival branch of the per-fix effect: within 25 m of the destination
the watch and timer are cleared and the mode leaves navigating; nothing
else changes and no timer is armed. -/
lemma processFix_arrival (dest : Coord) (s : NavState) (p : Coord) (r : OsrmRoute)
    (hroute : s.route = some r) (hmode : s.navMode = NavMode.navigating)
    (hnear : destDistCode p dest < 25) :
    processFix dest s p =
      ({ s with livePos := some p, watch := false, rerouteTimer := none,
                navMode := NavMode.preview }, false) := by
  obtain ⟨m, ro, lo, er, li, idx, fo, re, wa, ti⟩ := s
  simp only at hroute hmode
  subst hroute hmode
  simp [processFix, stopWatch, hnear]

/-- The per-fix effect never touches the camera-follow flag. -/
lemma processFix_followUser (dest : Coord) (s : NavState) (p : Coord) :
    (processFix dest s p).1.followUser = s.followUser := by
  simp only [processFix]
  repeat' split
  all_goals rfl

/-- The fetch completion never touches the camera-follow flag. -/
lemma fetchRouteComplete_followUser (s : NavState) (res : FetchOutcome) :
    (fetchRouteComplete s res).followUser = s.followUser := by
  cases res with
  | ok routes => cases routes <;> rfl
  | err => rfl

/-- A single fix advances the step index by at most one. -/
lemma processFix_stepIdx_le (dest : Coord) (s : NavState) (p : Coord) :
    (processFix dest s p).1.stepIdx ≤ s.stepIdx + 1 := by
  simp only [processFix, stopWatch]
  repeat' split
  all_goals simp

/-- While `rerouting` is set, a fix never arms a reroute timer. -/
lemma processFix_no_arm (dest : Coord) (s : NavState) (p : Coord)
    (h : s.rerouting = true) :
    (processFix dest s p).2 = false := by
  simp only [processFix]
  repeat' split
  all_goals simp_all

/-- A fix preserves the stuck configuration: the `rerouting` flag stays
set, no timer gets armed and no fetch starts. -/
lemma processFix_stuck (dest : Coord) (s : NavState) (p : Coord)
    (h : stuckState s) :
    stuckState (processFix dest s p).1 := by
  obtain ⟨h1, h2, h3⟩ := h
  simp only [processFix, stuckState, stopWatch]
  repeat' split
  all_goals simp_all

/-- First off-route fix while not rerouting: the flag is set and a 1500 ms
timer capturing the fix is armed; the step index does not move (the fix is
far from every maneuver), and nothing else changes. -/
lemma processFix_off_arm (dest : Coord) (s : NavState) (p : Coord) (r : OsrmRoute)
    (cur : OsrmStep)
    (hroute : s.route = some r) (hmode : s.navMode = NavMode.navigating)
    (hre : s.rerouting = false)
    (hcur : (legSteps r)[s.stepIdx]? = some cur)
    (hfarDest : ¬ destDistCode p dest < 25)
    (hfarSteps : ∀ st ∈ legSteps r, offRouteDistCode p st.maneuver.location > 120) :
    processFix dest s p =
      ({ s with livePos := some p, rerouting := true,
                rerouteTimer := some { delayMs := 1500, origin := p } }, true) := by
  have hcfar := hfarSteps cur (List.getElem?_mem hcur)
  obtain ⟨m, ro, lo, er, li, idx, fo, re, wa, ti⟩ := s
  simp only at hroute hmode hre hcur
  subst hroute hmode hre
  rcases hnext : (legSteps r)[idx + 1]? with _ | next
  · simp [processFix, hnext, hcur, hfarDest, hcfar]
  · have hnadv : ¬ advanceDistCode p next.maneuver.location < 35 := by
      have := hfarSteps next (List.getElem?_mem hnext)
      rw [advanceDistCode_eq_offRouteDistCode]
      linarith
    simp [processFix, hnext, hcur, hfarDest, hcfar, hnadv]

/-- Off-route fix while already rerouting: a no-op apart from recording
the fix. -/
lemma processFix_off_noop (dest : Coord) (s : NavState) (p : Coord) (r : OsrmRoute)
    (hroute : s.route = some r) (hmode : s.navMode = NavMode.navigating)
    (hre : s.rerouting = true)
    (hfarDest : ¬ destDistCode p dest < 25)
    (hfarSteps : ∀ st ∈ legSteps r, offRouteDistCode p st.maneuver.location > 120) :
    processFix dest s p = ({ s with livePos := some p }, false) := by
  obtain ⟨m, ro, lo, er, li, idx, fo, re, wa, ti⟩ := s
  simp only at hroute hmode hre
  subst hroute hmode hre
  rcases hnext : (legSteps r)[idx + 1]? with _ | next
  · rcases hcur : (legSteps r)[idx]? with _ | cur <;>
      simp [processFix, hnext, hcur, hfarDest]
  · have hnadv : ¬ advanceDistCode p next.maneuver.location < 35 := by
      have := hfarSteps next (List.getElem?_mem hnext)
      rw [advanceDistCode_eq_offRouteDistCode]
      linarith
    rcases hcur : (legSteps r)[idx]? with _ | cur <;>
      simp [processFix, hnext, hcur, hfarDest, hnadv]

/-- A run of off-route fixes processed with `rerouting` already set arms
no timer at all and leaves the reroute state untouched. -/
lemma processFixes_noop (dest : Coord) (r : OsrmRoute) :
    ∀ (ps : List Coord) (s : NavState),
      s.route = some r → s.navMode = NavMode.navigating → s.rerouting = true →
      (∀ q ∈ ps, ¬ destDistCode q dest < 25 ∧
        ∀ st ∈ legSteps r, offRouteDistCode q st.maneuver.location > 120) →
      (processFixes dest s ps).2 = 0 ∧
      (processFixes dest s ps).1.rerouting = true ∧
      (processFixes dest s ps).1.rerouteTimer = s.rerouteTimer ∧
      (processFixes dest s ps).1.routeLoading = s.routeLoading := by
  intro ps
  induction ps with
  | nil => exact fun s _ _ h3 _ => ⟨rfl, h3, rfl, rfl⟩
  | cons p ps ih =>
    intro s h1 h2 h3 h4
    have hstep := processFix_off_noop dest s p r h1 h2 h3
      (h4 p (List.mem_cons_self p ps)).1 (h4 p (List.mem_cons_self p ps)).2
    have htail := ih { s with livePos := some p } h1 h2 h3
      (fun q hq => h4 q (List.mem_cons_of_mem p hq))
    simp only [processFixes, hstep]
    refine ⟨?_, htail.2.1, htail.2.2.1, htail.2.2.2⟩
    simpa using htail.1

/-! Claim theorems. -/

/-- Claim C9: the distance used by the arrival, step-advance and off-route
checks is the planar small-angle approximation
`sqrt((a.lat - b.lat)^2 + (a.lng - b.lng)^2) * 111000`, with the same
111,000 m-per-degree scale on both deltas, total on all real coordinates
(the step checks read their target from the OSRM `[lng, lat]` pair). -/
theorem distance_formula_planar (p g : Coord) (loc : ℝ × ℝ) :
    destDistCode p g = distanceMetersSpec p g ∧
    advanceDistCode p loc = distanceMetersSpec p { lat := loc.2, lng := loc.1 } ∧
    offRouteDistCode p loc = distanceMetersSpec p { lat := loc.2, lng := loc.1 } :=
  ⟨rfl, rfl, rfl⟩

/-- Claim C4: a successful fetch installs the first returned route, resets
the step index to 0 and clears `rerouting`; a failed fetch (thrown error,
or a response without routes) clears `rerouting`, sets the error message
and leaves the route and step index — and all other fields — unchanged. -/
theorem fetch_result_application (s : NavState) :
    (∀ (r : OsrmRoute) (rs : List OsrmRoute),
      fetchRouteComplete s (FetchOutcome.ok (r :: rs)) =
        { s with route := some r, stepIdx := 0, routeLoading := false,
                 rerouting := false }) ∧
    fetchRouteComplete s FetchOutcome.err =
      { s with routeError := some "Could not load route", routeLoading := false,
               rerouting := false } ∧
    fetchRouteComplete s (FetchOutcome.ok []) =
      { s with routeError := some "No route found", routeLoading := false,
               rerouting := false } :=
  ⟨fun _ _ => rfl, rfl, rfl⟩

/-- Claim C8, counterexample: a provider response containing one route
whose step list is empty is not treated as failed — the route is installed
and no error is surfaced (`data.routes?.[0]` only tests the first route
for presence, never its steps). -/
theorem empty_steps_route_installed :
    legSteps emptyStepsRoute = [] ∧
    (fetchRouteComplete cexState (FetchOutcome.ok [emptyStepsRoute])).route =
      some emptyStepsRoute ∧
    (fetchRouteComplete cexState (FetchOutcome.ok [emptyStepsRoute])).routeError = none :=
  ⟨rfl, rfl, rfl⟩

/-- Claim C8 as amended: a fetch is treated as failed (error surfaced, no
route installed) when the provider returns zero routes or throws; a
returned first route is installed even when its step list is empty, with
no error surfaced. -/
theorem fetch_failed_only_when_no_routes (s : NavState) (r : OsrmRoute)
    (rs : List OsrmRoute) (hsteps : legSteps r = []) :
    ((fetchRouteComplete s (FetchOutcome.ok [])).routeError = some "No route found" ∧
      (fetchRouteComplete s (FetchOutcome.ok [])).route = s.route) ∧
    ((fetchRouteComplete s FetchOutcome.err).routeError = some "Could not load route" ∧
      (fetchRouteComplete s FetchOutcome.err).route = s.route) ∧
    ((fetchRouteComplete s (FetchOutcome.ok (r :: rs))).route = some r ∧
      (fetchRouteComplete s (FetchOutcome.ok (r :: rs))).routeError = s.routeError) :=
  ⟨⟨rfl, rfl⟩, ⟨rfl, rfl⟩, rfl, rfl⟩

/-- Claim C8, witness for the amended theorem at the empty-steps route. -/
theorem fetch_failed_only_when_no_routes_witness :
    legSteps emptyStepsRoute = [] ∧
    (fetchRouteComplete cexState (FetchOutcome.ok (emptyStepsRoute :: []))).route =
      some emptyStepsRoute ∧
    (fetchRouteComplete cexState (FetchOutcome.ok (emptyStepsRoute :: []))).routeError =
      cexState.routeError :=
  ⟨rfl, (fetch_failed_only_when_no_routes cexState emptyStepsRoute [] rfl).2.2⟩

/-- Claim C5, counterexample: with a reroute fetch in flight, stopping
navigation and then letting the fetch complete replaces the active route
with the fetched one — the completion handler applies the result to the
stopped session instead of discarding it (no still-active check exists in
`fetchRoute`, lines 645-655). -/
theorem stale_fetch_applied_after_stop :
    enabled inFlightState Event.stop ∧
    (stepEv wDest inFlightState Event.stop).navMode = NavMode.preview ∧
    (stepEv wDest inFlightState Event.stop).routeLoading = true ∧
    enabled (stepEv wDest inFlightState Event.stop)
      (Event.fetchDone (FetchOutcome.ok [wRouteB])) ∧
    (stepEv wDest (stepEv wDest inFlightState Event.stop)
      (Event.fetchDone (FetchOutcome.ok [wRouteB]))).route = some wRouteB ∧
    some wRouteB ≠ inFlightState.route := by
  refine ⟨rfl, rfl, rfl, rfl, rfl, ?_⟩
  simp only [inFlightState, wRouteA, wRouteB, ne_eq, Option.some.injEq,
    OsrmRoute.mk.injEq]
  norm_num

/-- Claim C5 as amended: the completion handler performs no still-active
check — a successful reroute result arriving after the session was stopped
(mode back to preview) still replaces the active route and resets the step
index; only an armed-but-unfired debounce timer is cancelled by stop, so a
fetch that has not started yet never runs. -/
theorem fetch_applied_without_active_check (dest : Coord) (s : NavState)
    (r : OsrmRoute) (rs : List OsrmRoute)
    (hstopped : s.navMode = NavMode.preview) :
    (stepEv dest s (Event.fetchDone (FetchOutcome.ok (r :: rs)))).route = some r ∧
    (stepEv dest s (Event.fetchDone (FetchOutcome.ok (r :: rs)))).stepIdx = 0 ∧
    (stopNavigation s).rerouteTimer = none :=
  ⟨rfl, rfl, rfl⟩

/-- Claim C5, witness for the amended theorem: the stopped in-flight
session accepts the late reroute result. -/
theorem fetch_applied_without_active_check_witness :
    (stepEv wDest stoppedInFlight (Event.fetchDone (FetchOutcome.ok (wRouteB :: [])))).route =
      some wRouteB ∧
    (stepEv wDest stoppedInFlight (Event.fetchDone (FetchOutcome.ok (wRouteB :: [])))).stepIdx = 0 ∧
    (stopNavigation stoppedInFlight).rerouteTimer = none :=
  fetch_applied_without_active_check wDest stoppedInFlight wRouteB [] rfl

/-- Claim C1: while navigating, a fix within 25 m of the destination
clears the geolocation watch and any pending reroute timer and leaves the
navigating mode (the source realizes the terminal arrived state by
`stopWatch()` plus `setNavMode('preview')` and returns at once), so no
step-advance or reroute logic runs for that fix: the step index, the
rerouting flag and the route are untouched and no timer is armed —
regardless of the current step index. -/
theorem arrival_cancels_and_stops (dest : Coord) (s : NavState) (p : Coord)
    (r : OsrmRoute)
    (hroute : s.route = some r) (hmode : s.navMode = NavMode.navigating)
    (hnear : destDistCode p dest < 25) :
    (processFix dest s p).1.navMode = NavMode.preview ∧
    (processFix dest s p).1.watch = false ∧
    (processFix dest s p).1.rerouteTimer = none ∧
    (processFix dest s p).1.stepIdx = s.stepIdx ∧
    (processFix dest s p).1.rerouting = s.rerouting ∧
    (processFix dest s p).1.route = s.route ∧
    (processFix dest s p).2 = false := by
  rw [processFix_arrival dest s p r hroute hmode hnear]
  exact ⟨rfl, rfl, rfl, rfl, rfl, rfl, rfl⟩

/-- Claim C1, witness: at step index 2 with an armed timer, a fix on the
destination arrives and releases everything. -/
theorem arrival_cancels_and_stops_witness :
    destDistCode wDest wDest < 25 ∧
    (processFix wDest armedNavState wDest).1.navMode = NavMode.preview ∧
    (processFix wDest armedNavState wDest).1.watch = false ∧
    (processFix wDest armedNavState wDest).1.rerouteTimer = none ∧
    (processFix wDest armedNavState wDest).1.stepIdx = armedNavState.stepIdx ∧
    (processFix wDest armedNavState wDest).2 = false := by
  have hnear : destDistCode wDest wDest < 25 := by
    rw [destDistCode_eval (le_refl (0 : ℝ)) (by norm_num [wDest])]
    norm_num
  have h := arrival_cancels_and_stops wDest armedNavState wDest wRouteA rfl rfl hnear
  exact ⟨hnear, h.1, h.2.1, h.2.2.1, h.2.2.2.1, h.2.2.2.2.2.2⟩

/-- Claim C2: while more than 25 m from the destination, a fix within
35 m of the next step's maneuver (when one exists) advances the step
index by exactly one, and no fix ever advances it by more than one. -/
theorem step_advance_exactly_one (dest : Coord) (s : NavState) (p : Coord)
    (r : OsrmRoute) (next : OsrmStep)
    (hroute : s.route = some r) (hmode : s.navMode = NavMode.navigating)
    (hfarDest : ¬ destDistCode p dest < 25)
    (hnext : (legSteps r)[s.stepIdx + 1]? = some next)
    (hclose : advanceDistCode p next.maneuver.location < 35) :
    (processFix dest s p).1.stepIdx = s.stepIdx + 1 ∧
    ∀ (t : NavState) (q : Coord), (processFix dest t q).1.stepIdx ≤ t.stepIdx + 1 := by
  refine ⟨?_, fun t q => processFix_stepIdx_le dest t q⟩
  obtain ⟨m, ro, lo, er, li, idx, fo, re, wa, ti⟩ := s
  simp only at hroute hmode hnext
  subst hroute hmode
  rcases hcur : (legSteps r)[idx]? with _ | cur
  · simp [processFix, hnext, hcur, hfarDest, hclose]
  · simp only [processFix]
    simp [hnext, hcur, hfarDest, hclose]
    split_ifs <;> rfl

/-- Claim C2, witness: on the two-step route the fix at the second
maneuver advances the index from 0 to 1. -/
theorem step_advance_exactly_one_witness :
    ¬ destDistCode wAdvFix wAdvDest < 25 ∧
    advanceDistCode wAdvFix wStepB.maneuver.location < 35 ∧
    (processFix wAdvDest advanceNavState wAdvFix).1.stepIdx =
      advanceNavState.stepIdx + 1 := by
  have hfarDest : ¬ destDistCode wAdvFix wAdvDest < 25 := by
    rw [destDistCode_eval (by norm_num : (0 : ℝ) ≤ 1) (by norm_num [wAdvFix, wAdvDest])]
    norm_num
  have hclose : advanceDistCode wAdvFix wStepB.maneuver.location < 35 := by
    rw [advanceDistCode_eval (le_refl (0 : ℝ)) (by norm_num [wAdvFix, wStepB])]
    norm_num
  exact ⟨hfarDest, hclose,
    (step_advance_exactly_one wAdvDest advanceNavState wAdvFix wRouteD wStepB
      rfl rfl hfarDest rfl hclose).1⟩

/-- Claim C3: the first off-route fix (not rerouting, more than 120 m from
the current step, not arriving) sets the rerouting flag immediately and
arms a single 1500 ms timer without starting the fetch; every further
off-route fix is a no-op, so a run of N such fixes schedules exactly one
reroute fetch, not N. -/
theorem reroute_debounced_single_fetch (dest : Coord) (s : NavState)
    (r : OsrmRoute) (cur : OsrmStep) (p : Coord) (rest : List Coord)
    (hroute : s.route = some r) (hmode : s.navMode = NavMode.navigating)
    (hre : s.rerouting = false)
    (hcur : (legSteps r)[s.stepIdx]? = some cur)
    (hfar : ∀ q ∈ p :: rest, ¬ destDistCode q dest < 25 ∧
      ∀ st ∈ legSteps r, offRouteDistCode q st.maneuver.location > 120) :
    (processFixes dest s (p :: rest)).2 = 1 ∧
    (processFixes dest s (p :: rest)).1.rerouting = true ∧
    (processFixes dest s (p :: rest)).1.rerouteTimer =
      some { delayMs := 1500, origin := p } ∧
    (processFixes dest s (p :: rest)).1.routeLoading = s.routeLoading := by
  have h1 := processFix_off_arm dest s p r cur hroute hmode hre hcur
    (hfar p (List.mem_cons_self p rest)).1 (hfar p (List.mem_cons_self p rest)).2
  have h2 := processFixes_noop dest r rest
    { s with livePos := some p, rerouting := true,
             rerouteTimer := some { delayMs := 1500, origin := p } }
    hroute hmode rfl
    (fun q hq => hfar q (List.mem_cons_of_mem p hq))
  simp only [processFixes, h1]
  refine ⟨?_, h2.2.1, h2.2.2.1, h2.2.2.2⟩
  simp [h2.1]

/-- Claim C3, witness: two consecutive far-off fixes on the one-step route
arm exactly one 1500 ms timer. -/
theorem reroute_debounced_single_fetch_witness :
    ¬ destDistCode wOffFix wOffDest < 25 ∧
    offRouteDistCode wOffFix wStep0.maneuver.location > 120 ∧
    (processFixes wOffDest offRouteNavState [wOffFix, wOffFix]).2 = 1 ∧
    (processFixes wOffDest offRouteNavState [wOffFix, wOffFix]).1.rerouting = true ∧
    (processFixes wOffDest offRouteNavState [wOffFix, wOffFix]).1.rerouteTimer =
      some { delayMs := 1500, origin := wOffFix } := by
  have hfd : ¬ destDistCode wOffFix wOffDest < 25 := by
    rw [destDistCode_eval (by norm_num : (0 : ℝ) ≤ 1) (by norm_num [wOffFix, wOffDest])]
    norm_num
  have hfs : offRouteDistCode wOffFix wStep0.maneuver.location > 120 := by
    rw [offRouteDistCode_eval (by norm_num : (0 : ℝ) ≤ 1)
      (by norm_num [wOffFix, wStep0, wManeuver0])]
    norm_num
  have hfar : ∀ q ∈ [wOffFix, wOffFix], ¬ destDistCode q wOffDest < 25 ∧
      ∀ st ∈ legSteps wRouteC, offRouteDistCode q st.maneuver.location > 120 := by
    intro q hq
    have hq' : q = wOffFix := by
      rcases List.mem_cons.mp hq with h | h
      · exact h
      · simpa using h
    subst hq'
    refine ⟨hfd, fun st hst => ?_⟩
    have hst' : st = wStep0 := by simpa [legSteps, wRouteC] using hst
    subst hst'
    exact hfs
  have h := reroute_debounced_single_fetch wOffDest offRouteNavState wRouteC wStep0
    wOffFix [wOffFix] rfl rfl rfl rfl hfar
  exact ⟨hfd, hfs, h.1, h.2.1, h.2.2.1⟩

/-- Claim C6: stopping from navigating goes back to preview, releases the
geolocation watch and cancels any armed reroute timer — after which no
watch callback and no timer firing is possible — and leaves the active
route in place. -/
theorem stop_releases_watch_and_timer (dest : Coord) (s : NavState)
    (h : enabled s Event.stop) :
    (stepEv dest s Event.stop).navMode = NavMode.preview ∧
    (stepEv dest s Event.stop).watch = false ∧
    (stepEv dest s Event.stop).rerouteTimer = none ∧
    (stepEv dest s Event.stop).route = s.route ∧
    (∀ p, ¬ enabled (stepEv dest s Event.stop) (Event.fix p)) ∧
    ¬ enabled (stepEv dest s Event.stop) Event.timerFire := by
  refine ⟨rfl, rfl, rfl, rfl, fun p => ?_, ?_⟩ <;>
    simp [stepEv, stopNavigation, stopWatch, enabled]

/-- Claim C6, witness: stopping the navigating session with a route. -/
theorem stop_releases_watch_and_timer_witness :
    enabled navFollowState Event.stop ∧
    (stepEv wDest navFollowState Event.stop).navMode = NavMode.preview ∧
    (stepEv wDest navFollowState Event.stop).watch = false ∧
    (stepEv wDest navFollowState Event.stop).rerouteTimer = none ∧
    (stepEv wDest navFollowState Event.stop).route = navFollowState.route ∧
    ¬ enabled (stepEv wDest navFollowState Event.stop) (Event.fix wDest) ∧
    ¬ enabled (stepEv wDest navFollowState Event.stop) Event.timerFire := by
  have h := stop_releases_watch_and_timer wDest navFollowState rfl
  exact ⟨rfl, h.1, h.2.1, h.2.2.1, h.2.2.2.1, h.2.2.2.2.1 wDest, h.2.2.2.2.2⟩

/-- Claim C7, counterexample: from a navigating session with the camera
following, the stop command — not any manual-pan report (the source wires
no pan handler at all; `setFollowUser(false)` occurs only inside
`stopNavigation`, line 691) — sets `followUser` to false. -/
theorem follow_camera_false_on_stop :
    navFollowState.followUser = true ∧
    enabled navFollowState Event.stop ∧
    (stepEv wDest navFollowState Event.stop).followUser = false :=
  ⟨rfl, rfl, rfl⟩

/-- Claim C7 as amended: `followUser` is true whenever navigating begins,
and across every event it changes only as follows: start and recenter set
it true, stop sets it false, and every other event (fixes, the timer
firing, fetch completions) leaves it unchanged. -/
theorem follow_camera_transitions (dest : Coord) (s : NavState) :
    (startNavigation s).followUser = true ∧
    (startNavigation s).navMode = NavMode.navigating ∧
    ∀ e : Event, (stepEv dest s e).followUser =
      (match e with
        | Event.start => true
        | Event.recenter => true
        | Event.stop => false
        | _ => s.followUser) := by
  refine ⟨rfl, rfl, fun e => ?_⟩
  cases e with
  | fix p => exact processFix_followUser dest s p
  | start => rfl
  | stop => rfl
  | recenter => rfl
  | timerFire => rfl
  | fetchDone res => exact fetchRouteComplete_followUser s res

/-- Claim C10: if the session holds an armed debounce timer with
`rerouting` set and no fetch in flight, then stopping navigation cancels
the timer but leaves `rerouting` set; that stuck configuration is
preserved by every subsequently possible event (only a fetch completion
clears the flag, and none can occur), and while `rerouting` is set no
off-route fix ever arms another reroute timer. -/
theorem rerouting_flag_never_cleared (dest : Coord) (s : NavState)
    (harm : s.rerouteTimer.isSome = true) (hre : s.rerouting = true)
    (hload : s.routeLoading = false) :
    stuckState (stopNavigation s) ∧
    (∀ (t : NavState) (e : Event),
      stuckState t → enabled t e → stuckState (stepEv dest t e)) ∧
    (∀ (t : NavState) (q : Coord),
      t.rerouting = true → (processFix dest t q).2 = false) := by
  refine ⟨⟨hre, rfl, hload⟩, ?_, fun t q ht => processFix_no_arm dest t q ht⟩
  intro t e hstuck hen
  cases e with
  | fix p => exact processFix_stuck dest t p hstuck
  | start => exact ⟨hstuck.1, hstuck.2.1, hstuck.2.2⟩
  | stop => exact ⟨hstuck.1, rfl, hstuck.2.2⟩
  | recenter => exact ⟨hstuck.1, hstuck.2.1, hstuck.2.2⟩
  | timerFire => exact absurd hen (by simp [enabled, hstuck.2.1])
  | fetchDone res => exact absurd hen (by simp [enabled, hstuck.2.2])

/-- Claim C10, witness: the armed navigating session, once stopped, is
stuck, and a later off-route fix arms nothing. -/
theorem rerouting_flag_never_cleared_witness :
    stuckArmedState.rerouting = true ∧
    stuckArmedState.rerouteTimer.isSome = true ∧
    stuckState (stopNavigation stuckArmedState) ∧
    (processFix wOffDest (stopNavigation stuckArmedState) wOffFix).2 = false := by
  have h := rerouting_flag_never_cleared wOffDest stuckArmedState rfl rfl rfl
  exact ⟨rfl, rfl, h.1, h.2.2 (stopNavigation stuckArmedState) wOffFix h.1.1⟩

end

end SmartParking
